import Mathlib

/-!
Verification of the local pseudo-plugin request router
(`plugin/local_plugin/local.py` of libstoragemgmt).

The router is embedded shallowly: the `LocalPlugin` object's mutable fields
become the record `PluginState`, each method becomes a function from state (and
the inputs the method reads) to a new state and/or a result, and Python
exceptions become explicit `Except`/`Option` error values.  A raised exception
leaves the object's previously performed field mutations in place, so stateful
methods return the (possibly partially mutated) state together with the error,
exactly as a Python method that raises mid-way leaves `self` mutated.

Parts of the libstoragemgmt library that `local.py` imports but whose source is
not part of this file (`lsm.Client`, `lsm.search_property`, `lsm.ErrorNumber`,
`lsm.uri_parse`) are modelled from the specification and marked as such; the
backend `Client` objects are opaque collaborators, so a connection is a record
of its externally observable behaviours, with a `name` used only to record
which connections a router operation actually touched.
-/

/-- Modelled from the spec: the error taxonomy of §7 of the specification
(`lsm.ErrorNumber` is library code outside `local.py`).  Only the distinctness
of the kinds matters to the router; `OTHER n` stands for any further error
number a backend may report. -/
inductive ErrorNumber where
  | INVALID_ARGUMENT
  | NO_SUPPORT
  | NOT_FOUND_SYSTEM
  | PLUGIN_BUG
  | OTHER (n : Nat)
deriving DecidableEq, Repr

/-- Modelled from the spec: a domain error (`lsm.LsmError`), an error number
plus a message. -/
structure LsmError where
  code : ErrorNumber
  msg : String
deriving DecidableEq, Repr

/-- A Python exception as seen by the router: either a domain `LsmError` or
any other exception, carrying its message. -/
inductive PyErr where
  | lsm (e : LsmError)
  | other (msg : String)
deriving DecidableEq, Repr

/-- Modelled from the spec: a storage object (system, disk, pool, volume,
battery, filesystem) as the router sees it: an `id`, the `system_id` of the
owning system, and further attributes reachable by name (for the post-filter).
For a system object `id` is the storage-system identifier. -/
structure LsmObj where
  id : String
  system_id : String
  extra : List (String × String)
deriving DecidableEq, Repr

/-- Attribute lookup by name, standing in for Python `getattr` on a storage
object. -/
def LsmObj.attr (o : LsmObj) (k : String) : Option String :=
  if k = "id" then some o.id
  else if k = "system_id" then some o.system_id
  else (o.extra.find? (fun p => p.1 = k)).map (fun p => p.2)

/-- Modelled from the spec: one live backend connection (`lsm.Client` is
library code outside `local.py`; §6 specifies its interface).  The router
treats it as opaque, so it is a record of behaviours: `call` answers the
collection queries dispatched by name (`"systems"`, `"disks"`, `"pools"`,
`"volumes"`, `"batteries"`, `"fs"`), `exec` answers the system-scoped
operations dispatched by name (result opaque, modelled as a string),
`teardownErr` is the outcome of its `plugin_unregister`, and `tmoErr ms` the
outcome of its `time_out_set ms`.  `name` identifies the connection in the
instrumentation logs. -/
structure Conn where
  name : String := ""
  call : String → Except PyErr (List LsmObj) := fun _ => .ok []
  exec : String → Except PyErr String := fun _ => .ok ""
  teardownErr : Option PyErr := none
  tmoErr : Int → Option PyErr := fun _ => none

/-- The mutable fields of a `LocalPlugin` instance (`__init__`, local.py
lines 47-53).  `sys_con_map` models the Python dict: bindings are consed to
the front, lookup returns the most recent binding, so dict overwrite,
membership and emptiness behave as in the source. -/
structure PluginState where
  tmo_ms : Int
  conns : List Conn
  syss : List LsmObj
  sys_con_map : List (String × Conn)
  unregistered : Bool
  nfs_conn : Option Conn

/-- Dict lookup on the association-list model of `sys_con_map`: first (= most
recently inserted) binding wins. -/
def dlookup (m : List (String × Conn)) (k : String) : Option Conn :=
  match m with
  | [] => none
  | p :: rest => if p.1 = k then some p.2 else dlookup rest k

/-- Python truthiness of a string: `bool(s)` is true iff `s` is non-empty.  In
particular `bool "false" = true`. -/
def pyBool (s : String) : Bool := s ≠ ""

/-- Python `dict.get(k, d)` on an association list of URI parameters. -/
def getVar (vars : List (String × String)) (k d : String) : String :=
  match vars.find? (fun p => p.1 = k) with
  | some p => p.2
  | none => d

/-- Modelled from the spec: `lsm.search_property` (library code outside
`local.py`): the uniform post-filter of §4.4, "keep only entries whose
attribute named by search-key equals search-value; a no-op if search-key is
unset". -/
def search_property (objs : List LsmObj) (k v : Option String) : List LsmObj :=
  match k with
  | none => objs
  | some key => objs.filter (fun o => o.attr key = v)

/-- The `_handle_errors` decorator (local.py lines 26-36) acting on a result:
a domain `LsmError` passes through unchanged, any other exception is rewrapped
as `PLUGIN_BUG` carrying the original message. -/
def _handle_errors {α : Type} : Except PyErr α → Except PyErr α
  | .error (.other m) => .error (.lsm ⟨ErrorNumber.PLUGIN_BUG, "Got unexpected error " ++ m⟩)
  | r => r

/-- The `_handle_errors` decorator acting on the error slot of a stateful
method (which returns no value, only a possible exception). -/
def _handle_errors_opt : Option PyErr → Option PyErr
  | some (.other m) => some (.lsm ⟨ErrorNumber.PLUGIN_BUG, "Got unexpected error " ++ m⟩)
  | r => r

namespace LocalPlugin

/-- `LocalPlugin._KMOD_PLUGIN_MAP` (local.py lines 40-45), in the source's
literal order (Python dict literals iterate in insertion order). -/
def KMOD_PLUGIN_MAP : List (String × String) :=
  [("megaraid_sas", "megaraid"), ("hpsa", "hpsa"), ("aacraid", "arcconf"), ("nfsd", "nfs")]

/-- `supported_plugins = set(_KMOD_PLUGIN_MAP.values())` (line 90); the set is
modelled as the duplicate-free list of values (only membership is used). -/
def supported_plugins : List String := (KMOD_PLUGIN_MAP.map (fun p => p.2)).dedup

/-- `LocalPlugin.__init__` (lines 47-53). -/
def init : PluginState :=
  { tmo_ms := 3000, conns := [], syss := [], sys_con_map := [], unregistered := false,
    nfs_conn := none }

/-- The environment `plugin_register` reads: effective uid, the URI parameters
produced by `uri_parse` (URI parsing itself is out of scope per §1), the
`/sys/module` listing, the two tool probes of the smartpqi arbitration, and the
outcome of `Client(plugin_uri, None, timeout, flags)` per plugin URI. -/
structure RegisterEnv where
  euid : Nat
  uri_vars : List (String × String)
  cur_kmods : List String
  arcconf_found : Bool
  sacli_found : Bool
  openClient : String → Int → Except PyErr Conn

/-- Lines 103-108: URI parameters prefixed with `"<plugin>_"` are stripped of
the prefix and collected, in URI-parameter order, as `key=value` strings for
that plugin's own connection string. -/
def sub_uri_paras (uri_vars : List (String × String)) (plugin : String) : List String :=
  uri_vars.foldl
    (fun acc kv =>
      let pfx := plugin ++ "_"
      if kv.1.take pfx.length = pfx then acc ++ [kv.1.drop pfx.length ++ "=" ++ kv.2]
      else acc)
    []

/-- Lines 145-147: the per-backend connection string. -/
def pluginUri (uri_vars : List (String × String)) (plugin : String) : String :=
  let ps := sub_uri_paras uri_vars plugin
  if ps.isEmpty then plugin ++ "://"
  else plugin ++ "://" ++ "?" ++ String.intercalate "&" ps

/-- Lines 119-123: the plugins requested by the loaded kernel modules, mapped
through `KMOD_PLUGIN_MAP` in its order. -/
def kmodRequested (cur_kmods : List String) : List String :=
  KMOD_PLUGIN_MAP.foldl
    (fun acc p => if cur_kmods.contains p.1 then acc ++ [p.2] else acc) []

/-- Lines 110-138: backend selection.  An explicit `only=` override must name a
supported plugin and selects exactly it; otherwise the loaded kernel modules
are mapped through `KMOD_PLUGIN_MAP`, the ambiguous `smartpqi` signal is
arbitrated (prefer arcconf if its tool is found, else hpsa if its tool is
found, else arcconf as fallback), and the result is deduplicated
(`set(requested_plugins)`; Python set iteration order is unspecified, modelled
by `List.dedup`, an order on which no claim depends). -/
def selectRequested (only_plugin : String) (cur_kmods : List String)
    (arcconf_found sacli_found : Bool) : Except LsmError (List String) :=
  if only_plugin ≠ "" ∧ ¬ supported_plugins.contains only_plugin then
    .error ⟨ErrorNumber.INVALID_ARGUMENT,
      "Plugin defined in only=" ++ only_plugin ++ " is not supported"⟩
  else if only_plugin ≠ "" then
    .ok [only_plugin]
  else
    let base := kmodRequested cur_kmods
    let reqs :=
      if cur_kmods.contains "smartpqi" then
        if arcconf_found then base ++ ["arcconf"]
        else if sacli_found then base ++ ["hpsa"]
        else base ++ ["arcconf"]
      else base
    .ok reqs.dedup

/-- Lines 144-158: open one connection per requested plugin, in order.  A
successful open is appended to `conns` (and recorded as `nfs_conn` for the
`nfs` plugin); an `LsmError` from an open is skipped when `ignore` holds and
otherwise aborts, leaving the connections opened so far in the state; a
non-`LsmError` exception is not caught here and aborts likewise. -/
def openLoop (env : RegisterEnv) (timeout : Int) (ignore : Bool) :
    List String → PluginState → PluginState × Option PyErr
  | [], st => (st, none)
  | p :: rest, st =>
    match env.openClient (pluginUri env.uri_vars p) timeout with
    | .ok conn =>
      openLoop env timeout ignore rest
        { st with conns := st.conns ++ [conn],
                  nfs_conn := if p = "nfs" then some conn else st.nfs_conn }
    | .error (.lsm e) =>
      if ignore then openLoop env timeout ignore rest st else (st, some (.lsm e))
    | .error (.other m) => (st, some (.other m))

/-- Lines 159-162: for each connection in order, for each of its reported
systems, bind the system id to the connection in `sys_con_map` (dict
assignment, i.e. overwrite: modelled by consing the new binding to the front)
and append the system to `syss`.  An error from a `systems()` call aborts,
keeping the bindings made so far. -/
def buildRouting :
    List Conn → List (String × Conn) → List LsmObj →
    List (String × Conn) × List LsmObj × Option PyErr
  | [], m, ss => (m, ss, none)
  | c :: rest, m, ss =>
    match c.call "systems" with
    | .error e => (m, ss, some e)
    | .ok sysl =>
      let r := sysl.foldl
        (fun (acc : List (String × Conn) × List LsmObj) s =>
          ((s.id, c) :: acc.1, acc.2 ++ [s]))
        (m, ss)
      buildRouting rest r.1 r.2

/-- `plugin_register` body (lines 86-165), before the `_handle_errors`
wrapper. -/
def register_body (st : PluginState) (env : RegisterEnv) (timeout : Int) :
    PluginState × Option PyErr :=
  let st := { st with tmo_ms := timeout }
  if env.euid ≠ 0 then
    (st, some (.lsm ⟨ErrorNumber.INVALID_ARGUMENT,
      "This plugin requires root privilege both daemon and client"⟩))
  else
    let ignore_init_error := pyBool (getVar env.uri_vars "ignore_init_error" "false")
    let only_plugin := getVar env.uri_vars "only" ""
    match selectRequested only_plugin env.cur_kmods env.arcconf_found env.sacli_found with
    | .error e => (st, some (.lsm e))
    | .ok requested =>
      if requested.isEmpty then
        (st, some (.lsm ⟨ErrorNumber.NO_SUPPORT, "No supported hardware found"⟩))
      else
        match openLoop env timeout ignore_init_error requested st with
        | (st', some e) => (st', some e)
        | (st', none) =>
          match buildRouting st'.conns st'.sys_con_map st'.syss with
          | (m, ss, some e) => ({ st' with sys_con_map := m, syss := ss }, some e)
          | (m, ss, none) =>
            let st'' := { st' with sys_con_map := m, syss := ss }
            if st''.sys_con_map.isEmpty then
              (st'', some (.lsm ⟨ErrorNumber.NO_SUPPORT, "No supported systems found"⟩))
            else (st'', none)

/-- `plugin_register` (decorated with `_handle_errors`). -/
def plugin_register (st : PluginState) (env : RegisterEnv) (timeout : Int) :
    PluginState × Option PyErr :=
  match register_body st env timeout with
  | (st', e) => (st', _handle_errors_opt e)

/-- Lines 169-170: call `plugin_unregister` on every connection, in order,
recording each call in the log; a teardown error aborts the loop (it is not
caught). -/
def unregLoop : List Conn → List String → List String × Option PyErr
  | [], log => (log, none)
  | c :: rest, log =>
    match c.teardownErr with
    | some e => (log ++ [c.name], some e)
    | none => unregLoop rest (log ++ [c.name])

/-- `plugin_unregister` body (lines 167-171): tear down every connection in
`conns` (the list is not cleared), then set `unregistered`.  The middle
component logs, in order, the connections whose teardown was invoked. -/
def unregister_body (st : PluginState) : PluginState × List String × Option PyErr :=
  match unregLoop st.conns [] with
  | (log, some e) => (st, log, some e)
  | (log, none) => ({ st with unregistered := true }, log, none)

/-- `plugin_unregister` (decorated with `_handle_errors`). -/
def plugin_unregister (st : PluginState) : PluginState × List String × Option PyErr :=
  match unregister_body st with
  | (st', log, e) => (st', log, _handle_errors_opt e)

/-- `__del__` (lines 55-57): invoke `plugin_unregister` unless already
unregistered. -/
def del_ (st : PluginState) : PluginState × List String × Option PyErr :=
  if st.unregistered then (st, [], none) else plugin_unregister st

/-- Lines 71-78 of `_query`: visit every connection in order, invoke the named
query, skip a connection whose query raises `LsmError` with code `NO_SUPPORT`,
abort on any other error; accumulate results and the log of visited
connections. -/
def queryLoop : List Conn → String → List LsmObj → List String →
    Except PyErr (List LsmObj) × List String
  | [], _, acc, log => (.ok acc, log)
  | c :: rest, q, acc, log =>
    match c.call q with
    | .ok objs => queryLoop rest q (acc ++ objs) (log ++ [c.name])
    | .error (.lsm e) =>
      if e.code = ErrorNumber.NO_SUPPORT then queryLoop rest q acc (log ++ [c.name])
      else (.error (.lsm e), log ++ [c.name])
    | .error (.other m) => (.error (.other m), log ++ [c.name])

/-- `_query` (lines 59-79).  The second component logs, in order, the
connections actually queried. -/
def _query (st : PluginState) (query_func_name : String)
    (search_key search_value : Option String) :
    Except PyErr (List LsmObj) × List String :=
  if search_key = some "system_id" then
    match search_value with
    | none => (.ok [], [])
    | some v =>
      match dlookup st.sys_con_map v with
      | none => (.ok [], [])
      | some c => (c.call query_func_name, [c.name])
  else
    match queryLoop st.conns query_func_name [] [] with
    | (.ok objs, log) => (.ok (search_property objs search_key search_value), log)
    | (.error e, log) => (.error e, log)

/-- `_exec` (lines 81-84).  The second component logs the connection called,
if any. -/
def _exec (st : PluginState) (sys_id func_name : String) :
    Except PyErr String × List String :=
  match dlookup st.sys_con_map sys_id with
  | none => (.error (.lsm ⟨ErrorNumber.NOT_FOUND_SYSTEM, "System not found"⟩), [])
  | some c => (c.exec func_name, [c.name])

/-- `systems` (lines 202-204): returns the stored `syss` list. -/
def systems (st : PluginState) : List LsmObj := st.syss

/-- `disks` (lines 206-211), decorated with `_handle_errors`. -/
def disks (st : PluginState) (search_key search_value : Option String) :
    Except PyErr (List LsmObj) × List String :=
  match _query st "disks" search_key search_value with
  | (r, log) => (_handle_errors r, log)

/-- `pools` (lines 213-218), decorated with `_handle_errors`. -/
def pools (st : PluginState) (search_key search_value : Option String) :
    Except PyErr (List LsmObj) × List String :=
  match _query st "pools" search_key search_value with
  | (r, log) => (_handle_errors r, log)

/-- `volumes` (lines 220-225), decorated with `_handle_errors`. -/
def volumes (st : PluginState) (search_key search_value : Option String) :
    Except PyErr (List LsmObj) × List String :=
  match _query st "volumes" search_key search_value with
  | (r, log) => (_handle_errors r, log)

/-- `batteries` (lines 227-232), decorated with `_handle_errors`. -/
def batteries (st : PluginState) (search_key search_value : Option String) :
    Except PyErr (List LsmObj) × List String :=
  match _query st "batteries" search_key search_value with
  | (r, log) => (_handle_errors r, log)

/-- `fs` (lines 323-325), decorated with `_handle_errors`. -/
def fs (st : PluginState) (search_key search_value : Option String) :
    Except PyErr (List LsmObj) × List String :=
  match _query st "fs" search_key search_value with
  | (r, log) => (_handle_errors r, log)

/-- `volume_delete` (lines 316-321), decorated with `_handle_errors`: dispatch
on the volume's embedded `system_id`. -/
def volume_delete (st : PluginState) (volume : LsmObj) :
    Except PyErr String × List String :=
  match _exec st volume.system_id "volume_delete" with
  | (r, log) => (_handle_errors r, log)

/-- `capabilities` (lines 195-200), decorated with `_handle_errors`: dispatch
on the system's `id`. -/
def capabilities (st : PluginState) (system : LsmObj) :
    Except PyErr String × List String :=
  match _exec st system.id "capabilities" with
  | (r, log) => (_handle_errors r, log)

/-- `time_out_set` loop body (lines 188-189): push the new timeout to every
connection in order; the first rejection aborts the loop. -/
def tmoLoop : List Conn → Int → Option PyErr
  | [], _ => none
  | c :: rest, ms =>
    match c.tmoErr ms with
    | some e => some e
    | none => tmoLoop rest ms

/-- `time_out_set` (lines 185-189), decorated with `_handle_errors`: stores the
new value locally first, then pushes it to each connection. -/
def time_out_set (st : PluginState) (ms : Int) : PluginState × Option PyErr :=
  let st' := { st with tmo_ms := ms }
  (st', _handle_errors_opt (tmoLoop st'.conns ms))

/-- `time_out_get` (lines 191-193). -/
def time_out_get (st : PluginState) : Int := st.tmo_ms

/-- `export_auth` (lines 369-375).  Note: in the source this is the one public
method NOT decorated with `_handle_errors`. -/
def export_auth (st : PluginState) : Except PyErr String :=
  match st.nfs_conn with
  | some c => c.exec "export_auth"
  | none =>
    .error (.lsm ⟨ErrorNumber.NO_SUPPORT,
      "NFS plugin is not loaded, please load nfsd kernel module and related services"⟩)

end LocalPlugin

/-- The list a successful query returned, and `[]` for an error; under the
hypotheses below an errored connection is exactly one that contributes
nothing. -/
def okList (r : Except PyErr (List LsmObj)) : List LsmObj :=
  match r with
  | .ok l => l
  | .error _ => []

/-- What one connection contributes to a fan-out query. -/
def contrib (c : Conn) (q : String) : List LsmObj := okList (c.call q)

/-- The connection either answers the query or reports `NO_SUPPORT`. -/
def okOrNoSup (c : Conn) (q : String) : Prop :=
  (∃ l, c.call q = .ok l) ∨ (∃ m, c.call q = .error (.lsm ⟨ErrorNumber.NO_SUPPORT, m⟩))

/-- An error that the fan-out loop does not tolerate: any non-`LsmError`
exception, or an `LsmError` whose code is not `NO_SUPPORT`. -/
def abortErr : PyErr → Prop
  | .lsm e => e.code ≠ ErrorNumber.NO_SUPPORT
  | .other _ => True

/-- The `(system id, owning connection)` bindings inserted while building the
routing table, in insertion order: connection order first, then each
connection's system order. -/
def sysPairs (conns : List Conn) : List (String × Conn) :=
  (conns.map (fun c => (okList (c.call "systems")).map (fun s => (s.id, c)))).flatten

/-- Lookup returning the binding of the LAST pair carrying the key, i.e. the
last-write-wins reading of an insertion sequence. -/
def dlookupLast (l : List (String × Conn)) (k : String) : Option Conn :=
  match l with
  | [] => none
  | p :: rest =>
    match dlookupLast rest k with
    | some c => some c
    | none => if p.1 = k then some p.2 else none

/-! Concrete backends and router states used to evaluate the model. -/

/-- A storage system reported by the megaraid backend of the C1 scenario. -/
def sysM : LsmObj := ⟨"sysM", "sysM", []⟩

/-- The megaraid connection of the C1 scenario. -/
def connM : Conn :=
  { name := "megaraid", call := fun q => if q = "systems" then .ok [sysM] else .ok [] }

/-- C1 scenario: root, no URI parameters at all (so `ignore_init_error` is
unset), megaraid_sas and hpsa kernel modules loaded; opening the megaraid
backend succeeds and opening the hpsa backend raises an `LsmError`. -/
def envC1 : LocalPlugin.RegisterEnv :=
  { euid := 0, uri_vars := [], cur_kmods := ["megaraid_sas", "hpsa"],
    arcconf_found := false, sacli_found := false,
    openClient := fun uri _ =>
      if uri = "megaraid://" then .ok connM
      else .error (.lsm ⟨ErrorNumber.OTHER 1, "hpsa open failed"⟩) }

/-- A backend whose every dispatched operation raises a non-`LsmError`
exception with message `boom`. -/
def connB2 : Conn := { name := "b2", exec := fun _ => .error (.other "boom") }

/-- C2 scenario: `connB2` is both the nfs connection and the owner of system
`s1`. -/
def stC2 : PluginState :=
  { LocalPlugin.init with conns := [connB2], nfs_conn := some connB2,
                          sys_con_map := [("s1", connB2)] }

/-- The system object with identifier `s1`. -/
def sysS1 : LsmObj := ⟨"s1", "s1", []⟩

/-- A connection whose teardown succeeds. -/
def connA3 : Conn := { name := "a" }

/-- C3 scenario: a registered router holding one connection. -/
def stC3 : PluginState := { LocalPlugin.init with conns := [connA3] }

/-- First system with identifier `s1`, reported by connection `a` (C4). -/
def sysA4 : LsmObj := ⟨"s1", "s1", [("name", "A")]⟩

/-- Second system, same identifier `s1`, reported by connection `b` (C4). -/
def sysB4 : LsmObj := ⟨"s1", "s1", [("name", "B")]⟩

/-- C4 connection `a`, reporting `sysA4`. -/
def connA4 : Conn :=
  { name := "a", call := fun q => if q = "systems" then .ok [sysA4] else .ok [] }

/-- C4 connection `b`, reporting `sysB4` (same system identifier as `sysA4`). -/
def connB4 : Conn :=
  { name := "b", call := fun q => if q = "systems" then .ok [sysB4] else .ok [] }

/-- C4 scenario: two backends whose reported systems share one identifier. -/
def envC4 : LocalPlugin.RegisterEnv :=
  { euid := 0, uri_vars := [], cur_kmods := ["hpsa", "nfsd"],
    arcconf_found := false, sacli_found := false,
    openClient := fun uri _ =>
      if uri = "hpsa://" then .ok connA4
      else if uri = "nfs://" then .ok connB4
      else .error (.lsm ⟨ErrorNumber.OTHER 2, "unexpected uri"⟩) }

/-- A disk object owned by system `s1`. -/
def d5 : LsmObj := ⟨"d5", "s1", []⟩

/-- C5 connection owning system `s1`. -/
def conn5 : Conn :=
  { name := "c5", call := fun q => if q = "disks" then .ok [d5] else .ok [] }

/-- C5 scenario: routing table binds `s1` to `conn5`. -/
def st5 : PluginState := { LocalPlugin.init with sys_con_map := [("s1", conn5)] }

/-- A disk reported by the first C6 connection. -/
def o61 : LsmObj := ⟨"o61", "sx", []⟩

/-- A disk reported by the third C6 connection. -/
def o62 : LsmObj := ⟨"o62", "sy", []⟩

/-- C6 connection answering the query. -/
def conn61 : Conn := { name := "g1", call := fun _ => .ok [o61] }

/-- C6 connection raising `NO_SUPPORT`. -/
def conn62 : Conn :=
  { name := "g2", call := fun _ => .error (.lsm ⟨ErrorNumber.NO_SUPPORT, "unsupported"⟩) }

/-- C6 connection answering the query. -/
def conn63 : Conn := { name := "g3", call := fun _ => .ok [o62] }

/-- C6 connection raising an error other than `NO_SUPPORT`. -/
def conn64 : Conn :=
  { name := "g4", call := fun _ => .error (.lsm ⟨ErrorNumber.OTHER 9, "bad"⟩) }

/-- C6 scenario: one supporting, one non-supporting, one supporting backend. -/
def st6a : PluginState := { LocalPlugin.init with conns := [conn61, conn62, conn63] }

/-- C6 abort scenario: a succeeding backend followed by a failing one. -/
def st6b : PluginState := { LocalPlugin.init with conns := [conn61, conn64] }

/-- C7 connection owning system `s1`. -/
def conn7 : Conn := { name := "c7" }

/-- C7 scenario: routing table binds only `s1`. -/
def st7 : PluginState := { LocalPlugin.init with sys_con_map := [("s1", conn7)] }

/-- A volume whose embedded system identifier `zz` is not in `st7`'s routing
table. -/
def vol7 : LsmObj := ⟨"v1", "zz", []⟩

/-- A disk owned by system `s1` (C9). -/
def d91 : LsmObj := ⟨"d1", "s1", []⟩

/-- A disk owned by the OTHER system `s2` of the same connection (C9). -/
def d92 : LsmObj := ⟨"d2", "s2", []⟩

/-- C9 connection managing systems `s1` and `s2`; its `disks` answer spans
both systems. -/
def conn9 : Conn :=
  { name := "c9", call := fun q => if q = "disks" then .ok [d91, d92] else .ok [] }

/-- C9 scenario: `s1` bound to `conn9`. -/
def st9 : PluginState := { LocalPlugin.init with sys_con_map := [("s1", conn9)] }

/-- A connection rejecting every new timeout value (C10). -/
def conn10 : Conn :=
  { name := "c10", tmoErr := fun _ => some (.lsm ⟨ErrorNumber.OTHER 7, "timeout rejected"⟩) }

/-- C10 scenario: one connection that rejects timeout updates; the stored
timeout is the default 3000. -/
def st10 : PluginState := { LocalPlugin.init with conns := [conn10] }

/-! Helper lemmas about the loops of the router. -/

/-- When every teardown succeeds, the teardown loop visits every connection in
order and reports no error. -/
lemma unregLoop_ok (conns : List Conn) :
    ∀ log, (∀ c ∈ conns, c.teardownErr = none) →
      LocalPlugin.unregLoop conns log = (log ++ conns.map (fun c => c.name), none) := by
  induction conns with
  | nil => intro log _; simp [LocalPlugin.unregLoop]
  | cons c rest ih =>
    intro log h
    have hc : c.teardownErr = none := h c (List.mem_cons_self c rest)
    have hr : ∀ c' ∈ rest, c'.teardownErr = none :=
      fun c' hc' => h c' (List.mem_cons_of_mem c hc')
    simp only [LocalPlugin.unregLoop, hc]
    rw [ih (log ++ [c.name]) hr]
    simp

/-- The inner fold of `buildRouting` conses the `(system id, connection)`
bindings in reverse system order and appends the systems in order. -/
lemma foldPairs (c : Conn) :
    ∀ (sysl : List LsmObj) (m : List (String × Conn)) (ss : List LsmObj),
      sysl.foldl
          (fun (acc : List (String × Conn) × List LsmObj) s =>
            ((s.id, c) :: acc.1, acc.2 ++ [s])) (m, ss)
        = ((sysl.map (fun s => (s.id, c))).reverse ++ m, ss ++ sysl) := by
  intro sysl
  induction sysl with
  | nil => intro m ss; simp
  | cons s rest ih =>
    intro m ss
    simp only [List.foldl_cons]
    rw [ih ((s.id, c) :: m) (ss ++ [s])]
    simp

/-- When every connection reports its systems successfully, `buildRouting`
appends the concatenation of all reported system lists to `syss` and conses
the routing bindings in reverse insertion order onto the initial table. -/
lemma buildRouting_ok :
    ∀ (conns : List Conn) (m0 : List (String × Conn)) (ss0 : List LsmObj),
      (∀ c ∈ conns, ∃ l, c.call "systems" = .ok l) →
      LocalPlugin.buildRouting conns m0 ss0 =
        ((sysPairs conns).reverse ++ m0,
         ss0 ++ (conns.map (fun c => okList (c.call "systems"))).flatten, none) := by
  intro conns
  induction conns with
  | nil => intro m0 ss0 _; simp [LocalPlugin.buildRouting, sysPairs]
  | cons c rest ih =>
    intro m0 ss0 h
    obtain ⟨l, hl⟩ := h c (List.mem_cons_self c rest)
    have hr : ∀ c' ∈ rest, ∃ l', c'.call "systems" = .ok l' :=
      fun c' hc' => h c' (List.mem_cons_of_mem c hc')
    simp only [LocalPlugin.buildRouting, hl]
    rw [foldPairs c l m0 ss0]
    rw [ih _ _ hr]
    simp [sysPairs, okList, hl, List.reverse_append, List.append_assoc]

/-- Association lookup distributes over append. -/
lemma dlookup_append :
    ∀ (l m : List (String × Conn)) (k : String),
      dlookup (l ++ m) k =
        match dlookup l k with
        | some c => some c
        | none => dlookup m k := by
  intro l
  induction l with
  | nil => intro m k; simp [dlookup]
  | cons p rest ih =>
    intro m k
    by_cases hp : p.1 = k
    · simp [dlookup, hp]
    · simp [dlookup, hp, ih m k]

/-- First-match lookup on the reversed list finds the binding of the LAST pair
carrying the key: insertion by consing is last-write-wins. -/
lemma dlookup_reverse_eq_last :
    ∀ (l : List (String × Conn)) (k : String), dlookup l.reverse k = dlookupLast l k := by
  intro l
  induction l with
  | nil => intro k; simp [dlookup, dlookupLast]
  | cons p rest ih =>
    intro k
    rw [List.reverse_cons, dlookup_append, ih k]
    by_cases hp : p.1 = k
    · cases hlast : dlookupLast rest k <;> simp [dlookupLast, dlookup, hp, hlast]
    · cases hlast : dlookupLast rest k <;> simp [dlookupLast, dlookup, hp, hlast]

/-- When every connection either answers or reports `NO_SUPPORT`, the fan-out
loop visits all connections in order and returns the concatenation of the
successful answers. -/
lemma queryLoop_all_ok (q : String) :
    ∀ (conns : List Conn) (acc : List LsmObj) (log : List String),
      (∀ c ∈ conns, okOrNoSup c q) →
      LocalPlugin.queryLoop conns q acc log =
        (.ok (acc ++ (conns.map (fun c => contrib c q)).flatten),
         log ++ conns.map (fun c => c.name)) := by
  intro conns
  induction conns with
  | nil => intro acc log _; simp [LocalPlugin.queryLoop]
  | cons c rest ih =>
    intro acc log h
    have hr : ∀ c' ∈ rest, okOrNoSup c' q :=
      fun c' hc' => h c' (List.mem_cons_of_mem c hc')
    rcases h c (List.mem_cons_self c rest) with ⟨l, hl⟩ | ⟨m, hm⟩
    · simp only [LocalPlugin.queryLoop, hl]
      rw [ih _ _ hr]
      simp [contrib, okList, hl, List.append_assoc]
    · simp only [LocalPlugin.queryLoop, hm, if_true]
      rw [ih _ _ hr]
      simp [contrib, okList, hm]

/-- A connection failing with anything but `NO_SUPPORT` aborts the fan-out
loop: the error propagates and the connections after it are not visited. -/
lemma queryLoop_abort (q : String) (cbad : Conn) (e : PyErr)
    (he : cbad.call q = .error e) (habort : abortErr e) :
    ∀ (pre : List Conn) (post : List Conn) (acc : List LsmObj) (log : List String),
      (∀ c ∈ pre, okOrNoSup c q) →
      LocalPlugin.queryLoop (pre ++ cbad :: post) q acc log =
        (.error e, log ++ pre.map (fun c => c.name) ++ [cbad.name]) := by
  intro pre
  induction pre with
  | nil =>
    intro post acc log _
    rcases e with le | m
    · simp only [List.nil_append, LocalPlugin.queryLoop, he]
      rw [if_neg habort]
      simp
    · simp [LocalPlugin.queryLoop, he]
  | cons c rest ih =>
    intro post acc log h
    have hr : ∀ c' ∈ rest, okOrNoSup c' q :=
      fun c' hc' => h c' (List.mem_cons_of_mem c hc')
    rcases h c (List.mem_cons_self c rest) with ⟨l, hl⟩ | ⟨m, hm⟩
    · simp only [List.cons_append, LocalPlugin.queryLoop, hl, List.append_eq]
      rw [ih post (acc ++ l) (log ++ [c.name]) hr]
      simp [List.append_assoc]
    · simp only [List.cons_append, LocalPlugin.queryLoop, hm, if_true, List.append_eq]
      rw [ih post acc (log ++ [c.name]) hr]
      simp [List.append_assoc]

/-! Claim theorems. -/

/-- C1: evaluation of `plugin_register` at the failing input.  With the
`ignore_init_error` option UNSET (no URI parameters at all) and the hpsa
backend's connection open raising an `LsmError`, the source computes
`ignore_init_error = bool("false") = True` (Python truthiness of a non-empty
string, last conjunct), so registration does NOT abort: it succeeds, silently
skipping the failed backend and keeping the megaraid connection open — contrary
to the claim (and to the code's own comment at line 135, which assumes the
unset option behaves as false). -/
theorem C1_register_succeeds_despite_unset_ignore_flag :
    (LocalPlugin.plugin_register LocalPlugin.init envC1 3000).2 = none ∧
    (LocalPlugin.plugin_register LocalPlugin.init envC1 3000).1.conns.map (fun c => c.name)
      = ["megaraid"] ∧
    (LocalPlugin.plugin_register LocalPlugin.init envC1 3000).1.syss = [sysM] ∧
    pyBool (getVar envC1.uri_vars "ignore_init_error" "false") = true :=
  ⟨rfl, rfl, rfl, rfl⟩

/-- C2: evaluation at the failing input.  `export_auth` is the one
router-public operation without the `_handle_errors` decorator: when the nfs
backend's `export_auth` raises a non-`LsmError` exception, the caller observes
the raw exception, not a `PLUGIN_BUG` wrapping.  By contrast the decorated
`capabilities`, hitting the same raw exception on the same backend, delivers
the wrapped `PLUGIN_BUG` error the claim describes. -/
theorem C2_export_auth_escapes_unwrapped :
    LocalPlugin.export_auth stC2 = .error (.other "boom") ∧
    LocalPlugin.capabilities stC2 sysS1 =
      (.error (.lsm ⟨ErrorNumber.PLUGIN_BUG, "Got unexpected error boom"⟩), ["b2"]) :=
  ⟨rfl, rfl⟩

/-- C3 counterexample: on a router with one connection `a`, the first
`plugin_unregister` invokes teardown on `a` (log `["a"]`) and sets the
unregistered flag; the second call invokes teardown on `a` AGAIN (its log is
`["a"]`, not `[]`), refuting the claim that a second call does not re-invoke
teardown on the already-closed connections. -/
theorem C3_second_unregister_reinvokes_teardown :
    (LocalPlugin.plugin_unregister stC3).2.1 = ["a"] ∧
    (LocalPlugin.plugin_unregister stC3).1.unregistered = true ∧
    (LocalPlugin.plugin_unregister (LocalPlugin.plugin_unregister stC3).1).2.1 = ["a"] ∧
    ["a"] ≠ ([] : List String) :=
  ⟨rfl, rfl, rfl, by decide⟩

/-- C3 amended: a second `plugin_unregister` call returns the identical router
state and raises no error, but re-invokes teardown on every connection in the
connection set a second time (the `conns` list is not cleared); only the
implicit teardown at destruction (`__del__`) is suppressed by the
`unregistered` flag after the first call. -/
theorem C3_unregister_second_call (st : PluginState)
    (h : ∀ c ∈ st.conns, c.teardownErr = none) :
    (LocalPlugin.plugin_unregister (LocalPlugin.plugin_unregister st).1).1 =
      (LocalPlugin.plugin_unregister st).1 ∧
    (LocalPlugin.plugin_unregister (LocalPlugin.plugin_unregister st).1).2.1 =
      st.conns.map (fun c => c.name) ∧
    (LocalPlugin.plugin_unregister st).2.1 = st.conns.map (fun c => c.name) ∧
    (LocalPlugin.plugin_unregister (LocalPlugin.plugin_unregister st).1).2.2 = none ∧
    (LocalPlugin.del_ (LocalPlugin.plugin_unregister st).1).2.1 = [] := by
  have h1 : LocalPlugin.plugin_unregister st =
      ({ st with unregistered := true }, st.conns.map (fun c => c.name), none) := by
    simp [LocalPlugin.plugin_unregister, LocalPlugin.unregister_body,
      unregLoop_ok st.conns [] h, _handle_errors_opt]
  have h2 : LocalPlugin.plugin_unregister { st with unregistered := true } =
      ({ st with unregistered := true }, st.conns.map (fun c => c.name), none) := by
    simp [LocalPlugin.plugin_unregister, LocalPlugin.unregister_body,
      unregLoop_ok st.conns [] h, _handle_errors_opt]
  refine ⟨?_, ?_, ?_, ?_, ?_⟩ <;> simp [h1, h2, LocalPlugin.del_]

/-- C3 witness: the amended theorem applied to the concrete one-connection
router `stC3`. -/
theorem C3_unregister_second_call_witness :
    (∀ c ∈ stC3.conns, c.teardownErr = none) ∧
    ((LocalPlugin.plugin_unregister (LocalPlugin.plugin_unregister stC3).1).1 =
      (LocalPlugin.plugin_unregister stC3).1 ∧
    (LocalPlugin.plugin_unregister (LocalPlugin.plugin_unregister stC3).1).2.1 =
      stC3.conns.map (fun c => c.name) ∧
    (LocalPlugin.plugin_unregister stC3).2.1 = stC3.conns.map (fun c => c.name) ∧
    (LocalPlugin.plugin_unregister (LocalPlugin.plugin_unregister stC3).1).2.2 = none ∧
    (LocalPlugin.del_ (LocalPlugin.plugin_unregister stC3).1).2.1 = []) := by
  have h : ∀ c ∈ stC3.conns, c.teardownErr = none := by
    intro c hc
    have hce : c = connA3 := by simpa [stC3, LocalPlugin.init] using hc
    rw [hce]; rfl
  exact ⟨h, C3_unregister_second_call stC3 h⟩

/-- C4 counterexample: two backends each report a system with the same
identifier `s1`.  After registration, `systems()` returns BOTH objects (its
id list is `["s1", "s1"]` and the result is not the later object alone), so the
claimed full last-write-wins overwrite does not apply to the `systems()`
result; only the routing table binds `s1` to the later connection `b`. -/
theorem C4_systems_keeps_both_colliding_entries :
    (LocalPlugin.plugin_register LocalPlugin.init envC4 3000).2 = none ∧
    LocalPlugin.systems (LocalPlugin.plugin_register LocalPlugin.init envC4 3000).1
      = [sysA4, sysB4] ∧
    (LocalPlugin.systems (LocalPlugin.plugin_register LocalPlugin.init envC4 3000).1).map
      (fun o => o.id) = ["s1", "s1"] ∧
    LocalPlugin.systems (LocalPlugin.plugin_register LocalPlugin.init envC4 3000).1
      ≠ [sysB4] ∧
    (dlookup (LocalPlugin.plugin_register LocalPlugin.init envC4 3000).1.sys_con_map
      "s1").map (fun c => c.name) = some "b" :=
  ⟨rfl, rfl, rfl, by decide, rfl⟩

/-- C4 amended: when every connection reports its systems successfully, the
routing-table builder (lines 159-162, whose outputs `plugin_register` stores as
`sys_con_map` and `syss`, the latter returned verbatim by `systems()`) appends
the order-preserving CONCATENATION of all reported system lists — entries with
colliding identifiers are all retained — while the table itself receives the
bindings in insertion order, so lookup resolves a colliding identifier to the
LAST connection that reported it (first match over the reversed insertion
sequence `(sysPairs conns).reverse`), falling back to the pre-existing
table. -/
theorem C4_systems_concat_and_table_last_wins (conns : List Conn)
    (m0 : List (String × Conn)) (ss0 : List LsmObj)
    (h : ∀ c ∈ conns, ∃ l, c.call "systems" = .ok l) :
    LocalPlugin.buildRouting conns m0 ss0 =
      ((sysPairs conns).reverse ++ m0,
       ss0 ++ (conns.map (fun c => okList (c.call "systems"))).flatten, none) ∧
    (∀ k, dlookup (LocalPlugin.buildRouting conns m0 ss0).1 k =
      match dlookupLast (sysPairs conns) k with
      | some c => some c
      | none => dlookup m0 k) := by
  have hb := buildRouting_ok conns m0 ss0 h
  refine ⟨hb, fun k => ?_⟩
  rw [hb]
  rw [show ((sysPairs conns).reverse ++ m0,
    ss0 ++ (conns.map (fun c => okList (c.call "systems"))).flatten,
    (none : Option PyErr)).1 = (sysPairs conns).reverse ++ m0 from rfl]
  rw [dlookup_append, dlookup_reverse_eq_last]

/-- C4 witness: the amended theorem applied to the two colliding backends of
the counterexample scenario. -/
theorem C4_systems_concat_and_table_last_wins_witness :
    (∀ c ∈ [connA4, connB4], ∃ l, c.call "systems" = .ok l) ∧
    (LocalPlugin.buildRouting [connA4, connB4] [] [] =
      ((sysPairs [connA4, connB4]).reverse ++ [],
       [] ++ ([connA4, connB4].map (fun c => okList (c.call "systems"))).flatten, none) ∧
    (∀ k, dlookup (LocalPlugin.buildRouting [connA4, connB4] [] []).1 k =
      match dlookupLast (sysPairs [connA4, connB4]) k with
      | some c => some c
      | none => dlookup [] k)) := by
  have h : ∀ c ∈ [connA4, connB4], ∃ l, c.call "systems" = .ok l := by
    intro c hc
    rcases List.mem_cons.mp hc with h1 | h2
    · exact ⟨[sysA4], by rw [h1]; rfl⟩
    · have hce : c = connB4 := by simpa using h2
      exact ⟨[sysB4], by rw [hce]; rfl⟩
  exact ⟨h, C4_systems_concat_and_table_last_wins [connA4, connB4] [] [] h⟩

/-- C5: for any collection query with search-key `"system_id"`: when the
search-value is absent from the routing table the result is the empty sequence
and the log of queried connections is empty (zero connections queried); when it
is present, fan-out is skipped and exactly the single owning connection is
queried, its answer returned. -/
theorem C5_system_id_lookup_skips_fanout (st : PluginState) (q v : String) :
    (dlookup st.sys_con_map v = none →
      LocalPlugin._query st q (some "system_id") (some v) = (.ok [], [])) ∧
    (∀ c, dlookup st.sys_con_map v = some c →
      LocalPlugin._query st q (some "system_id") (some v) = (c.call q, [c.name])) := by
  constructor
  · intro h
    simp [LocalPlugin._query, h]
  · intro c h
    simp [LocalPlugin._query, h]

/-- C5 witness: on the routing table binding only `s1`, a miss (`zz`) yields
the empty result with no connection queried, and a hit (`s1`) queries exactly
`conn5`. -/
theorem C5_system_id_lookup_skips_fanout_witness :
    dlookup st5.sys_con_map "zz" = none ∧
    LocalPlugin._query st5 "disks" (some "system_id") (some "zz") = (.ok [], []) ∧
    dlookup st5.sys_con_map "s1" = some conn5 ∧
    LocalPlugin._query st5 "disks" (some "system_id") (some "s1")
      = (conn5.call "disks", [conn5.name]) :=
  ⟨rfl, (C5_system_id_lookup_skips_fanout st5 "disks" "zz").1 rfl, rfl,
   (C5_system_id_lookup_skips_fanout st5 "disks" "s1").2 conn5 rfl⟩

/-- C6: a fan-out query (search-key not `"system_id"`).  Part one: when every
connection either answers or raises `NO_SUPPORT`, every connection is visited
in connection-set order, a `NO_SUPPORT` connection contributes nothing, and the
result is the order-preserving concatenation of the succeeding connections'
answers with the uniform post-filter applied.  Part two: a connection failing
with any other error aborts the whole call, that error propagates, and the
connections after it are not visited.  Part three: the post-filter is a no-op
when the search-key is unset. -/
theorem C6_fanout_merge_and_error_policy :
    (∀ (st : PluginState) (q : String) (k v : Option String),
      k ≠ some "system_id" → (∀ c ∈ st.conns, okOrNoSup c q) →
      LocalPlugin._query st q k v =
        (.ok (search_property ((st.conns.map (fun c => contrib c q)).flatten) k v),
         st.conns.map (fun c => c.name))) ∧
    (∀ (st : PluginState) (q : String) (k v : Option String) (pre post : List Conn)
        (cbad : Conn) (e : PyErr),
      k ≠ some "system_id" → st.conns = pre ++ cbad :: post →
      (∀ c ∈ pre, okOrNoSup c q) → cbad.call q = .error e → abortErr e →
      LocalPlugin._query st q k v =
        (.error e, pre.map (fun c => c.name) ++ [cbad.name])) ∧
    (∀ (objs : List LsmObj) (v : Option String), search_property objs none v = objs) := by
  refine ⟨?_, ?_, ?_⟩
  · intro st q k v hk h
    simp only [LocalPlugin._query, if_neg hk]
    rw [queryLoop_all_ok q st.conns [] [] h]
    simp
  · intro st q k v pre post cbad e hk hconns hpre he habort
    simp only [LocalPlugin._query, if_neg hk, hconns]
    rw [queryLoop_abort q cbad e he habort pre post [] [] hpre]
    simp
  · intro objs v
    rfl

/-- C6 witness: on three backends (answer / `NO_SUPPORT` / answer) the merged
result is the concatenation of the two answers and all three are visited; on a
backend failing with a non-`NO_SUPPORT` error the error propagates after
visiting only the connections up to and including it; the unset-key filter is
the identity. -/
theorem C6_fanout_merge_and_error_policy_witness :
    ((none : Option String) ≠ some "system_id") ∧
    (∀ c ∈ st6a.conns, okOrNoSup c "disks") ∧
    LocalPlugin._query st6a "disks" none none = (.ok [o61, o62], ["g1", "g2", "g3"]) ∧
    st6b.conns = [conn61] ++ conn64 :: [] ∧
    (∀ c ∈ [conn61], okOrNoSup c "disks") ∧
    conn64.call "disks" = .error (.lsm ⟨ErrorNumber.OTHER 9, "bad"⟩) ∧
    abortErr (.lsm ⟨ErrorNumber.OTHER 9, "bad"⟩) ∧
    LocalPlugin._query st6b "disks" none none
      = (.error (.lsm ⟨ErrorNumber.OTHER 9, "bad"⟩), ["g1", "g4"]) ∧
    search_property [o61] none (some "x") = [o61] := by
  have hk : (none : Option String) ≠ some "system_id" := by simp
  have hA : ∀ c ∈ st6a.conns, okOrNoSup c "disks" := by
    intro c hc
    simp only [st6a, List.mem_cons, List.not_mem_nil, or_false] at hc
    rcases hc with h | h | h
    · subst h; exact Or.inl ⟨[o61], rfl⟩
    · subst h; exact Or.inr ⟨"unsupported", rfl⟩
    · subst h; exact Or.inl ⟨[o62], rfl⟩
  have hpre : ∀ c ∈ [conn61], okOrNoSup c "disks" := by
    intro c hc
    have hce : c = conn61 := by simpa using hc
    subst hce; exact Or.inl ⟨[o61], rfl⟩
  have habort : abortErr (.lsm ⟨ErrorNumber.OTHER 9, "bad"⟩) := by
    intro hcontra; exact ErrorNumber.noConfusion hcontra
  refine ⟨hk, hA, ?_, rfl, hpre, rfl, habort, ?_, ?_⟩
  · exact C6_fanout_merge_and_error_policy.1 st6a "disks" none none hk hA
  · exact C6_fanout_merge_and_error_policy.2.1 st6b "disks" none none [conn61] []
      conn64 (.lsm ⟨ErrorNumber.OTHER 9, "bad"⟩) hk rfl hpre rfl habort
  · exact C6_fanout_merge_and_error_policy.2.2 [o61] (some "x")

/-- C7: a system-scoped single-target operation whose operand's embedded
system identifier is not in the routing table fails with `NOT_FOUND_SYSTEM`
and calls no backend connection (empty call log), both for the generic
dispatcher `_exec` and for `volume_delete` dispatching on the volume's
`system_id`. -/
theorem C7_missing_system_not_found (st : PluginState) (vol : LsmObj)
    (sys_id fname : String) :
    (dlookup st.sys_con_map sys_id = none →
      LocalPlugin._exec st sys_id fname =
        (.error (.lsm ⟨ErrorNumber.NOT_FOUND_SYSTEM, "System not found"⟩), [])) ∧
    (dlookup st.sys_con_map vol.system_id = none →
      LocalPlugin.volume_delete st vol =
        (.error (.lsm ⟨ErrorNumber.NOT_FOUND_SYSTEM, "System not found"⟩), [])) := by
  constructor
  · intro h
    simp [LocalPlugin._exec, h]
  · intro h
    simp [LocalPlugin.volume_delete, LocalPlugin._exec, h, _handle_errors]

/-- C7 witness: deleting `vol7`, whose system `zz` is not in `st7`'s routing
table, fails with `NOT_FOUND_SYSTEM` and the call log stays empty. -/
theorem C7_missing_system_not_found_witness :
    dlookup st7.sys_con_map "zz" = none ∧
    dlookup st7.sys_con_map vol7.system_id = none ∧
    LocalPlugin._exec st7 "zz" "volume_delete" =
      (.error (.lsm ⟨ErrorNumber.NOT_FOUND_SYSTEM, "System not found"⟩), []) ∧
    LocalPlugin.volume_delete st7 vol7 =
      (.error (.lsm ⟨ErrorNumber.NOT_FOUND_SYSTEM, "System not found"⟩), []) :=
  ⟨rfl, rfl, (C7_missing_system_not_found st7 vol7 "zz" "volume_delete").1 rfl,
   (C7_missing_system_not_found st7 vol7 "zz" "volume_delete").2 rfl⟩

/-- C8: with the ambiguous `smartpqi` kernel module present (and no `only=`
override), the probe-based selection appends exactly the arbitration choice —
arcconf if the arcconf tool is found, else hpsa if the hpsa tool is found, else
arcconf as fallback — and the chosen backend is in the selected set. -/
theorem C8_smartpqi_arbitration (kmods : List String) (a s : Bool)
    (h : kmods.contains "smartpqi" = true) :
    LocalPlugin.selectRequested "" kmods a s =
      .ok ((LocalPlugin.kmodRequested kmods ++
        [if a then "arcconf" else if s then "hpsa" else "arcconf"]).dedup) ∧
    (a = true → "arcconf" ∈
      (LocalPlugin.kmodRequested kmods ++
        [if a then "arcconf" else if s then "hpsa" else "arcconf"]).dedup) ∧
    (a = false → s = true → "hpsa" ∈
      (LocalPlugin.kmodRequested kmods ++
        [if a then "arcconf" else if s then "hpsa" else "arcconf"]).dedup) ∧
    (a = false → s = false → "arcconf" ∈
      (LocalPlugin.kmodRequested kmods ++
        [if a then "arcconf" else if s then "hpsa" else "arcconf"]).dedup) := by
  have hm : "smartpqi" ∈ kmods := by simpa using h
  refine ⟨?_, ?_, ?_, ?_⟩
  · cases a <;> cases s <;> simp [LocalPlugin.selectRequested, h, hm]
  · intro ha; subst ha
    simp [List.mem_dedup]
  · intro ha hs; subst ha; subst hs
    simp [List.mem_dedup]
  · intro ha hs; subst ha; subst hs
    simp [List.mem_dedup]

/-- C8 witness: with only the `smartpqi` module loaded, the three arbitration
outcomes evaluate to arcconf (tool found), hpsa (only its tool found) and
arcconf (no tool found, fallback). -/
theorem C8_smartpqi_arbitration_witness :
    (["smartpqi"] : List String).contains "smartpqi" = true ∧
    LocalPlugin.selectRequested "" ["smartpqi"] true false = .ok ["arcconf"] ∧
    LocalPlugin.selectRequested "" ["smartpqi"] false true = .ok ["hpsa"] ∧
    LocalPlugin.selectRequested "" ["smartpqi"] false false = .ok ["arcconf"] ∧
    "arcconf" ∈ (["arcconf"] : List String) := by
  refine ⟨rfl, ?_, ?_, ?_, ?_⟩
  · exact (C8_smartpqi_arbitration ["smartpqi"] true false rfl).1
  · exact (C8_smartpqi_arbitration ["smartpqi"] false true rfl).1
  · exact (C8_smartpqi_arbitration ["smartpqi"] false false rfl).1
  · exact (C8_smartpqi_arbitration ["smartpqi"] true false rfl).2.1 rfl

/-- C9: for a collection query with search-key `"system_id"` and a value
present in the routing table, the owning connection's whole answer is returned
verbatim — no post-filter is applied — so entries whose own `system_id`
differs from the search-value (other systems managed by the same connection)
are included in the result. -/
theorem C9_owner_answer_unfiltered (st : PluginState) (q v : String) (c : Conn)
    (l : List LsmObj) (h1 : dlookup st.sys_con_map v = some c)
    (h2 : c.call q = .ok l) :
    (LocalPlugin._query st q (some "system_id") (some v)).1 = .ok l ∧
    (∀ o ∈ l, o.system_id ≠ v →
      ∃ out, (LocalPlugin._query st q (some "system_id") (some v)).1 = .ok out ∧
        o ∈ out) := by
  have hq : LocalPlugin._query st q (some "system_id") (some v) = (c.call q, [c.name]) := by
    simp [LocalPlugin._query, h1]
  constructor
  · rw [hq, h2]
  · intro o ho _
    exact ⟨l, by rw [hq, h2], ho⟩

/-- C9 witness: system `s1`'s owning connection also manages system `s2`; the
query for `system_id = s1` returns both disks, including `d92` whose
`system_id` is `s2`. -/
theorem C9_owner_answer_unfiltered_witness :
    dlookup st9.sys_con_map "s1" = some conn9 ∧
    conn9.call "disks" = .ok [d91, d92] ∧
    d92.system_id ≠ "s1" ∧ d92 ∈ [d91, d92] ∧
    (LocalPlugin._query st9 "disks" (some "system_id") (some "s1")).1 = .ok [d91, d92] :=
  ⟨rfl, rfl, by decide, by simp,
   (C9_owner_answer_unfiltered st9 "disks" "s1" conn9 [d91, d92] rfl rfl).1⟩

/-- C10: `time_out_set` stores the new value locally BEFORE pushing it to the
connections, so even when a connection rejects the push and the call fails
with that error, a subsequent `time_out_get` returns the new (rejected) value,
not the previous one: the set operation is not atomic on error. -/
theorem C10_timeout_set_not_atomic (st : PluginState) (ms : Int) (e : PyErr)
    (h : (LocalPlugin.time_out_set st ms).2 = some e) :
    LocalPlugin.time_out_get (LocalPlugin.time_out_set st ms).1 = ms ∧
    (st.tmo_ms ≠ ms →
      LocalPlugin.time_out_get (LocalPlugin.time_out_set st ms).1 ≠ st.tmo_ms) := by
  constructor
  · rfl
  · intro hne hc
    exact hne hc.symm

/-- C10 witness: on a router whose sole connection rejects every timeout
update, setting 5000 fails with the rejection error yet `time_out_get`
afterwards returns 5000, not the previous 3000. -/
theorem C10_timeout_set_not_atomic_witness :
    (LocalPlugin.time_out_set st10 5000).2 =
      some (.lsm ⟨ErrorNumber.OTHER 7, "timeout rejected"⟩) ∧
    LocalPlugin.time_out_get (LocalPlugin.time_out_set st10 5000).1 = 5000 ∧
    LocalPlugin.time_out_get (LocalPlugin.time_out_set st10 5000).1 ≠ st10.tmo_ms := by
  refine ⟨rfl, ?_, ?_⟩
  · exact (C10_timeout_set_not_atomic st10 5000
      (.lsm ⟨ErrorNumber.OTHER 7, "timeout rejected"⟩) rfl).1
  · exact (C10_timeout_set_not_atomic st10 5000
      (.lsm ⟨ErrorNumber.OTHER 7, "timeout rejected"⟩) rfl).2 (by decide)
